import Mathlib

/-!
Verification development for the raffle-backoffice reservation/allocation core.

Shallow embedding of:
* `apps/raffles/services/reservations.py` (reserve_specific, reserve_random,
  release_order_reservations, confirm_paid)
* `apps/raffles/signals.py` (order_status_changed post-save side effects)
* `apps/raffles/models.py` (TicketNumber / Order state, mark_as_expired)
* `apps/raffles/management/commands/generate_tickets.py` (initial ticket rows)
* `apps/appointments/services/bookings.py` (create/confirm/cancel/complete/no-show,
  is_slot_available)
* `apps/appointments/models.py` (Appointment.end_time)

Times are modelled as integer minutes; money as integers in currency units.
Database rows are lists; the per-request transaction is a pure state-to-state
function returning `Except` (an exception rolls the whole transaction back,
so the error case carries no state).
-/

namespace RaffleCore

/-- Ticket statuses, from `TicketStatus` in `apps/raffles/models.py`. -/
inductive TicketStatus where
  | AVAILABLE
  | RESERVED
  | SOLD
deriving DecidableEq

/-- Order statuses, from `OrderStatus` in `apps/raffles/models.py`. -/
inductive OrderStatus where
  | DRAFT
  | PENDING_PAYMENT
  | PAID
  | CANCELLED
  | EXPIRED
deriving DecidableEq

/-- `str(OrderStatus.X)` as used in f-string error messages (the enum value). -/
def OrderStatus.str : OrderStatus → String
  | .DRAFT => "DRAFT"
  | .PENDING_PAYMENT => "PENDING_PAYMENT"
  | .PAID => "PAID"
  | .CANCELLED => "CANCELLED"
  | .EXPIRED => "EXPIRED"

/-- A `TicketNumber` row (fields used by the allocation core). -/
structure TicketNumber where
  number : Int
  status : TicketStatus
  reserved_by_order : Option Nat
  reserved_until : Option Int
deriving DecidableEq

/-- An `Order` row (fields used by the allocation core).  `contact` is the
WhatsAppContact foreign key, opaque to the core. -/
structure Order where
  id : Nat
  contact : Nat
  qty : Nat
  total_amount : Int
  status : OrderStatus
  payment_proof_media_id : Option String
  paid_at : Option Int
  expires_at : Option Int
deriving DecidableEq

/-- The rows of one raffle plus its orders: the state one reservation
transaction reads and writes.  `order_tickets` is the OrderTicket join table
as (order id, ticket number) pairs (ticket numbers are unique per raffle). -/
structure RaffleState where
  min_number : Int
  max_number : Int
  ticket_price : Int
  is_active : Bool
  tickets : List TicketNumber
  orders : List Order
  next_order_id : Nat
  order_tickets : List (Nat × Int)
deriving DecidableEq

/-- Django settings consumed by `reservations.py`. -/
structure ReservationSettings where
  RESERVATION_TIMEOUT_MINUTES : Int
  MIN_TICKETS_PER_ORDER : Nat
  MAX_TICKETS_PER_ORDER : Nat

/-- `ReservationError(msg)`. -/
structure ReservationError where
  msg : String
deriving DecidableEq

/-- Python comma-join of the rendered numbers. -/
def joinNums (l : List Int) : String :=
  String.intercalate ", " (l.map toString)

/-- The ticket row update applied by the lazy expiry sweep in
`reserve_specific` / `reserve_random` (lines 64-73 and 137-146 of
`reservations.py`): a RESERVED row with `reserved_until < now` becomes
AVAILABLE with order and expiry cleared; every other row is untouched. -/
def sweepTicket (now : Int) (t : TicketNumber) : TicketNumber :=
  if t.status = .RESERVED ∧ (∃ u, t.reserved_until = some u ∧ u < now) then
    { t with status := .AVAILABLE, reserved_by_order := none, reserved_until := none }
  else
    t

instance (now : Int) (t : TicketNumber) :
    Decidable (∃ u, t.reserved_until = some u ∧ u < now) := by
  cases h : t.reserved_until with
  | none => exact .isFalse (by simp [h])
  | some u => exact decidable_of_iff (u < now) (by simp [h])

/-- Marks one of the requested rows RESERVED for the new order
(`reservations.py` lines 103-107 / 176-180). -/
def reserveTicket (numbers : List Int) (oid : Nat) (expires_at : Int)
    (t : TicketNumber) : TicketNumber :=
  if t.number ∈ numbers then
    { t with status := .RESERVED, reserved_by_order := some oid,
             reserved_until := some expires_at }
  else
    t

/-- `reserve_specific(raffle_id, numbers, contact)` from `reservations.py`.
The state `s` is the rows of the raffle (the `select_for_update` raffle lookup
reduces to the `is_active` test).  Returns the new state and the created
id of the new order; an exception rolls the transaction back, so errors carry no
state.  (In the "Tickets not found" message Python formats an unordered set
difference; we render the missing numbers in request order.) -/
def reserve_specific (cfg : ReservationSettings) (now : Int) (numbers : List Int)
    (contact : Nat) (s : RaffleState) :
    Except ReservationError (RaffleState × Nat) :=
  if ¬ s.is_active then
    .error ⟨"Raffle not found or is not active"⟩
  else
    let qty := numbers.length
    if qty < cfg.MIN_TICKETS_PER_ORDER then
      .error ⟨"Minimum " ++ toString cfg.MIN_TICKETS_PER_ORDER ++ " ticket(s) required"⟩
    else if qty > cfg.MAX_TICKETS_PER_ORDER then
      .error ⟨"Maximum " ++ toString cfg.MAX_TICKETS_PER_ORDER ++ " tickets allowed"⟩
    else
      let invalid := numbers.filter (fun n => n < s.min_number ∨ n > s.max_number)
      if invalid ≠ [] then
        .error ⟨"Invalid numbers: " ++ joinNums invalid⟩
      else if numbers.length ≠ numbers.dedup.length then
        .error ⟨"Duplicate numbers are not allowed"⟩
      else
        let swept := s.tickets.map (sweepTicket now)
        let selected := swept.filter (fun t => t.number ∈ numbers)
        if selected.length ≠ qty then
          let found := selected.map (fun t => t.number)
          .error ⟨"Tickets not found: " ++ joinNums (numbers.filter (fun n => n ∉ found))⟩
        else
          let unavailable := (selected.filter (fun t => t.status ≠ .AVAILABLE)).map
            (fun t => t.number)
          if unavailable ≠ [] then
            .error ⟨"Tickets not available: " ++ joinNums unavailable⟩
          else
            let expires_at := now + cfg.RESERVATION_TIMEOUT_MINUTES
            let oid := s.next_order_id
            let order : Order :=
              { id := oid, contact := contact, qty := qty,
                total_amount := s.ticket_price * (qty : Int),
                status := .PENDING_PAYMENT, payment_proof_media_id := none,
                paid_at := none, expires_at := some expires_at }
            .ok ({ s with
                    tickets := swept.map (reserveTicket numbers oid expires_at),
                    orders := s.orders ++ [order],
                    next_order_id := oid + 1,
                    order_tickets := s.order_tickets ++ numbers.map (fun n => (oid, n)) },
                 oid)

/-- `reserve_random(raffle_id, qty, contact)` from `reservations.py`.
`sel` is the outcome of the external random source
(`random.sample(available_tickets, qty)`): a list of `qty` distinct numbers
drawn from the available rows after the sweep; any other `sel` is not a
possible sample, modelled as an error. -/
def reserve_random (cfg : ReservationSettings) (now : Int) (qty : Nat)
    (sel : List Int) (contact : Nat) (s : RaffleState) :
    Except ReservationError (RaffleState × Nat) :=
  if ¬ s.is_active then
    .error ⟨"Raffle not found or is not active"⟩
  else if qty < cfg.MIN_TICKETS_PER_ORDER then
    .error ⟨"Minimum " ++ toString cfg.MIN_TICKETS_PER_ORDER ++ " ticket(s) required"⟩
  else if qty > cfg.MAX_TICKETS_PER_ORDER then
    .error ⟨"Maximum " ++ toString cfg.MAX_TICKETS_PER_ORDER ++ " tickets allowed"⟩
  else
    let swept := s.tickets.map (sweepTicket now)
    let avail := swept.filter (fun t => t.status = .AVAILABLE)
    if avail.length < qty then
      .error ⟨"Only " ++ toString avail.length ++ " ticket(s) available, you requested "
              ++ toString qty⟩
    else if ¬ (sel.length = qty ∧ sel.Nodup ∧ ∀ n ∈ sel, n ∈ avail.map (fun t => t.number)) then
      .error ⟨"not a sample of the available tickets"⟩
    else
      let expires_at := now + cfg.RESERVATION_TIMEOUT_MINUTES
      let oid := s.next_order_id
      let order : Order :=
        { id := oid, contact := contact, qty := qty,
          total_amount := s.ticket_price * (qty : Int),
          status := .PENDING_PAYMENT, payment_proof_media_id := none,
          paid_at := none, expires_at := some expires_at }
      .ok ({ s with
              tickets := swept.map (reserveTicket sel oid expires_at),
              orders := s.orders ++ [order],
              next_order_id := oid + 1,
              order_tickets := s.order_tickets ++ sel.map (fun n => (oid, n)) },
           oid)

/-- Looks up the order row the caller holds an instance of. -/
def findOrder (s : RaffleState) (oid : Nat) : Option Order :=
  s.orders.find? (fun o => o.id = oid)

/-- Applies `f` to the order row with id `oid`. -/
def updateOrder (orders : List Order) (oid : Nat) (f : Order → Order) : List Order :=
  orders.map (fun o => if o.id = oid then f o else o)

/-- The row update of the release paths (`release_order_reservations` lines
204-208 and the CANCELLED/EXPIRED signal branches): a row reserved by `oid`
becomes AVAILABLE with order and expiry cleared. -/
def releaseTicket (oid : Nat) (t : TicketNumber) : TicketNumber :=
  if t.reserved_by_order = some oid then
    { t with status := .AVAILABLE, reserved_by_order := none, reserved_until := none }
  else
    t

/-- The row update of the confirm path (`confirm_paid` lines 240-243 and the
PAID signal branch): a row reserved by `oid` becomes SOLD with
`reserved_until` cleared and `reserved_by_order` retained. -/
def soldTicket (oid : Nat) (t : TicketNumber) : TicketNumber :=
  if t.reserved_by_order = some oid then
    { t with status := .SOLD, reserved_until := none }
  else
    t

/-- The PAID-branch fallback of the signal (`signals.py` lines 52-60): when no
row references the order, rows linked through OrderTicket are set SOLD with
`reserved_by_order` re-pointed at the order. -/
def soldLinkedTicket (linked : List Int) (oid : Nat) (t : TicketNumber) : TicketNumber :=
  if t.number ∈ linked then
    { t with status := .SOLD, reserved_by_order := some oid, reserved_until := none }
  else
    t

/-- `order_status_changed` post-save receiver from `apps/raffles/signals.py`,
fired by every `order.save()` on an existing row.  `prev` is the status
captured by the pre-save receiver.  The WhatsApp notification is external and
best-effort (errors logged, never raised), so it has no effect on this state. -/
def order_status_changed (now : Int) (prev : OrderStatus) (oid : Nat)
    (s : RaffleState) : RaffleState :=
  match findOrder s oid with
  | none => s
  | some o =>
    if prev = o.status then s
    else if o.status = .PAID then
      let anyReserved := s.tickets.any (fun t => t.reserved_by_order = some oid)
      let tickets :=
        if anyReserved then s.tickets.map (soldTicket oid)
        else
          let linked := ((s.order_tickets.filter (fun p => p.1 = oid)).map (fun p => p.2))
          if linked ≠ [] then s.tickets.map (soldLinkedTicket linked oid)
          else s.tickets
      let orders :=
        if o.paid_at = none then updateOrder s.orders oid (fun o => { o with paid_at := some now })
        else s.orders
      { s with tickets := tickets, orders := orders }
    else if o.status = .CANCELLED ∨ o.status = .EXPIRED then
      { s with tickets := s.tickets.map (releaseTicket oid) }
    else s

/-- `release_order_reservations(order)` from `reservations.py`.  The caller
passes an order instance; we look its row up by id.  The final
`order.save(update_fields=['status', ...])` fires the post-save signal. -/
def release_order_reservations (now : Int) (oid : Nat) (s : RaffleState) :
    Except ReservationError (RaffleState × Nat) :=
  match findOrder s oid with
  | none => .error ⟨"order instance not found"⟩
  | some o =>
    if ¬ (o.status = .DRAFT ∨ o.status = .PENDING_PAYMENT ∨ o.status = .EXPIRED) then
      .error ⟨"Cannot release tickets for order with status: " ++ o.status.str⟩
    else
      let count := (s.tickets.filter (fun t => t.reserved_by_order = some oid)).length
      let s1 : RaffleState :=
        { s with tickets := s.tickets.map (releaseTicket oid),
                 orders := updateOrder s.orders oid (fun o => { o with status := .CANCELLED }) }
      .ok (order_status_changed now o.status oid s1, count)

/-- `if payment_proof_media_id: order.payment_proof_media_id = ...` — Python
truthiness, so `None` and the empty string leave the field unchanged. -/
def storedProof (proof : Option String) (old : Option String) : Option String :=
  match proof with
  | some p => if p = "" then old else some p
  | none => old

/-- `confirm_paid(order, payment_proof_media_id=None)` from `reservations.py`.
The final `order.save` fires the post-save signal. -/
def confirm_paid (now : Int) (oid : Nat) (proof : Option String) (s : RaffleState) :
    Except ReservationError (RaffleState × Nat) :=
  match findOrder s oid with
  | none => .error ⟨"order instance not found"⟩
  | some o =>
    if o.status ≠ .PENDING_PAYMENT then
      .error ⟨"Cannot confirm order with status: " ++ o.status.str⟩
    else if (s.tickets.filter (fun t => t.reserved_by_order = some oid)).length = 0 then
      .error ⟨"No tickets found for this order"⟩
    else
      let s1 : RaffleState :=
        { s with tickets := s.tickets.map (soldTicket oid),
                 orders := updateOrder s.orders oid (fun o =>
                   { o with status := .PAID, paid_at := some now,
                            payment_proof_media_id :=
                              storedProof proof o.payment_proof_media_id }) }
      .ok (order_status_changed now o.status oid s1, oid)

/-- `Order.is_expired` from `apps/raffles/models.py`. -/
def order_is_expired (now : Int) (o : Order) : Bool :=
  o.status = .PENDING_PAYMENT ∧ (∃ e, o.expires_at = some e ∧ now > e)

instance (now : Int) (o : Order) : Decidable (∃ e, o.expires_at = some e ∧ now > e) := by
  cases h : o.expires_at with
  | none => exact .isFalse (by simp [h])
  | some e => exact decidable_of_iff (now > e) (by simp [h])

/-- `Order.mark_as_expired` from `apps/raffles/models.py`: when the order is
an expired PENDING_PAYMENT one, sets status EXPIRED (the save fires the
signal, which releases its tickets); otherwise does nothing. -/
def mark_as_expired (now : Int) (oid : Nat) (s : RaffleState) : RaffleState × Bool :=
  match findOrder s oid with
  | none => (s, false)
  | some o =>
    if order_is_expired now o ∧ o.status = .PENDING_PAYMENT then
      (order_status_changed now o.status oid
        { s with orders := updateOrder s.orders oid (fun o => { o with status := .EXPIRED }) },
       true)
    else (s, false)

/-- The state after `generate_tickets` (management command): one AVAILABLE
row per number in `[min_number, max_number]`, no orders yet. -/
def generate_tickets (minN maxN price : Int) : RaffleState :=
  { min_number := minN, max_number := maxN, ticket_price := price, is_active := true,
    tickets := (List.range (maxN + 1 - minN).toNat).map (fun i : Nat =>
      { number := minN + (i : Int), status := .AVAILABLE,
        reserved_by_order := none, reserved_until := none }),
    orders := [], next_order_id := 0, order_tickets := [] }

/-- One allocation / order-lifecycle operation, as observable on the rows of the
rows.  Failed calls raise and roll back, leaving the state unchanged, so only
successful calls appear. -/
inductive RStep (cfg : ReservationSettings) : RaffleState → RaffleState → Prop where
  | reserveSpecific (now : Int) (numbers : List Int) (contact : Nat)
      (s s' : RaffleState) (oid : Nat)
      (h : reserve_specific cfg now numbers contact s = .ok (s', oid)) : RStep cfg s s'
  | reserveRandom (now : Int) (qty : Nat) (sel : List Int) (contact : Nat)
      (s s' : RaffleState) (oid : Nat)
      (h : reserve_random cfg now qty sel contact s = .ok (s', oid)) : RStep cfg s s'
  | release (now : Int) (oid : Nat) (s s' : RaffleState) (n : Nat)
      (h : release_order_reservations now oid s = .ok (s', n)) : RStep cfg s s'
  | confirmPaid (now : Int) (oid : Nat) (proof : Option String)
      (s s' : RaffleState) (r : Nat)
      (h : confirm_paid now oid proof s = .ok (s', r)) : RStep cfg s s'
  | markExpired (now : Int) (oid : Nat) (s : RaffleState) :
      RStep cfg s (mark_as_expired now oid s).1

/-- States reachable from `s0` by the allocation and lifecycle operations. -/
def RReachable (cfg : ReservationSettings) (s0 s : RaffleState) : Prop :=
  Relation.ReflTransGen (RStep cfg) s0 s

/-- Number of SOLD rows. -/
def countSold (s : RaffleState) : Nat :=
  (s.tickets.filter (fun t => t.status = .SOLD)).length

/-- Number of RESERVED rows. -/
def countReserved (s : RaffleState) : Nat :=
  (s.tickets.filter (fun t => t.status = .RESERVED)).length

instance {ε α : Type} [DecidableEq ε] [DecidableEq α] : DecidableEq (Except ε α) :=
  fun a b =>
    match a, b with
    | .error x, .error y => decidable_of_iff (x = y) (by simp)
    | .ok x, .ok y => decidable_of_iff (x = y) (by simp)
    | .error _, .ok _ => .isFalse (by simp)
    | .ok _, .error _ => .isFalse (by simp)

/-- The TicketNumber field invariant of §3 of the spec, weakened to what the
code maintains: a SOLD row keeps `reserved_by_order` as a historical link. -/
def TicketConsistent (t : TicketNumber) : Prop :=
  (t.status = .RESERVED → t.reserved_by_order ≠ none ∧ t.reserved_until ≠ none) ∧
  (t.status = .AVAILABLE → t.reserved_by_order = none ∧ t.reserved_until = none) ∧
  (t.status = .SOLD → t.reserved_until = none)

/-- Concrete settings for scenarios: 15-minute holds, 1-50 tickets per order
(the per-order bounds of §3 of the spec and the Order qty validators). -/
def cfgDefault : ReservationSettings := ⟨15, 1, 50⟩

/-- A freshly generated two-ticket raffle (numbers 1-2, price 10). -/
def cexBase : RaffleState := generate_tickets 1 2 10

/-- `cexBase` after `reserve_specific` of ticket 1 for contact 7 at time 0. -/
def cexReserved : RaffleState :=
  ((reserve_specific cfgDefault 0 [1] 7 cexBase).toOption.map Prod.fst).getD cexBase

/-- The order created by that reservation. -/
def cexOrder : Order :=
  { id := 0, contact := 7, qty := 1, total_amount := 10,
    status := .PENDING_PAYMENT, payment_proof_media_id := none,
    paid_at := none, expires_at := some 15 }

/-- `cexReserved` after `confirm_paid` at time 1. -/
def cexPaid : RaffleState :=
  ((confirm_paid 1 0 none cexReserved).toOption.map Prod.fst).getD cexReserved

/-- `cexReserved` after `release_order_reservations` at time 0. -/
def cexReleased : RaffleState :=
  ((release_order_reservations 0 0 cexReserved).toOption.map Prod.fst).getD cexReserved

/-- The ten-ticket raffle of the §8 scenario (numbers 1-10, price 10) after
`reserve_specific(raffle, [3,4,5], contactA)` at time 0. -/
def c8After : RaffleState :=
  ((reserve_specific cfgDefault 0 [3, 4, 5] 70 (generate_tickets 1 10 10)).toOption.map
    Prod.fst).getD (generate_tickets 1 10 10)

/-- Ticket 1 held by order 0 with an expired hold (`reserved_until = 5`). -/
def cexExpiredTicket : TicketNumber :=
  { number := 1, status := .RESERVED, reserved_by_order := some 0,
    reserved_until := some 5 }

/-- An untouched AVAILABLE row. -/
def cexOtherTicket : TicketNumber :=
  { number := 2, status := .AVAILABLE, reserved_by_order := none,
    reserved_until := none }

/-- A raffle whose ticket 1 carries an expired hold by order 0. -/
def cexExpired : RaffleState :=
  { min_number := 1, max_number := 2, ticket_price := 10, is_active := true,
    tickets := [cexExpiredTicket, cexOtherTicket],
    orders := [{ id := 0, contact := 7, qty := 1, total_amount := 10,
                 status := .PENDING_PAYMENT, payment_proof_media_id := none,
                 paid_at := none, expires_at := some 5 }],
    next_order_id := 1, order_tickets := [(0, 1)] }

/-- A DRAFT order holding no tickets. -/
def cexDraftOrder : Order :=
  { id := 0, contact := 7, qty := 1, total_amount := 10,
    status := .DRAFT, payment_proof_media_id := none,
    paid_at := none, expires_at := none }

/-- A raffle state holding one DRAFT order with no tickets reserved to it. -/
def cexDraftState : RaffleState :=
  { generate_tickets 1 2 10 with
    orders := [cexDraftOrder],
    next_order_id := 1 }

end RaffleCore

namespace BookingCore

/-- Appointment statuses, from `AppointmentStatus` in `apps/appointments/models.py`. -/
inductive AppointmentStatus where
  | PENDING
  | CONFIRMED
  | CANCELLED
  | COMPLETED
  | NO_SHOW
deriving DecidableEq

/-- Payment statuses, from `PaymentStatus` in `apps/appointments/models.py`. -/
inductive PaymentStatus where
  | PENDING
  | PAID
  | REFUNDED
deriving DecidableEq

/-- `get_status_display()`: the human label of the status choice. -/
def AppointmentStatus.display : AppointmentStatus → String
  | .PENDING => "Pendiente"
  | .CONFIRMED => "Confirmado"
  | .CANCELLED => "Cancelado"
  | .COMPLETED => "Completado"
  | .NO_SHOW => "No Show"

/-- A `Service` row (fields the booking core reads). -/
structure Service where
  duration_minutes : Int
  price : Int
  currency : String
  is_active : Bool
  buffer_time_minutes : Int
  max_bookings_per_day : Nat
  advance_booking_days : Int
deriving DecidableEq

/-- A `Customer` row (fields the booking core reads/writes); identified by
phone within the tenant. -/
structure Customer where
  phone : String
  name : String
  email : String
  last_appointment_at : Option Int
deriving DecidableEq

/-- An `Appointment` row (fields the booking core reads/writes). -/
structure Appointment where
  customer_phone : String
  scheduled_at : Int
  duration_minutes : Int
  status : AppointmentStatus
  payment_status : PaymentStatus
  total_amount : Int
  currency : String
  bancard_transaction_id : Option String
  customer_notes : String
  internal_notes : String
  confirmed_at : Option Int
  cancelled_at : Option Int
  completed_at : Option Int
deriving DecidableEq

/-- `Appointment.end_time` from `apps/appointments/models.py`: `None` unless
both `scheduled_at` and `duration_minutes` are truthy (a stored datetime is
always truthy; an integer is falsy exactly when 0). -/
def end_time (a : Appointment) : Option Int :=
  if a.duration_minutes ≠ 0 then some (a.scheduled_at + a.duration_minutes) else none

/-- Failures of the booking operations: `BookingError(msg)`, the `TypeError`
Python raises when `complete_appointment` compares `end_time = None` against
a datetime, and the modelling artifact of a caller handing in an instance
whose row is absent. -/
inductive BookingFailure where
  | bookingError (msg : String)
  | pyTypeError
  | missingRow
deriving DecidableEq

/-- `confirm_appointment(appointment, payment_transaction_id=None)` from
`bookings.py`.  `if payment_transaction_id:` is Python truthiness. -/
def confirm_appointment (now : Int) (ptid : Option String) (a : Appointment)
    (c : Customer) : Except BookingFailure (Appointment × Customer) :=
  if a.status ≠ .PENDING then
    .error (.bookingError ("No se puede confirmar una cita con estado: " ++ a.status.display))
  else
    .ok ({ a with status := .CONFIRMED, payment_status := .PAID,
                  confirmed_at := some now,
                  bancard_transaction_id :=
                    match ptid with
                    | some p => if p = "" then a.bancard_transaction_id else some p
                    | none => a.bancard_transaction_id },
         { c with last_appointment_at := some now })

/-- `cancel_appointment(appointment, reason)` (reason defaults empty) from `bookings.py`. -/
def cancel_appointment (now : Int) (reason : String) (a : Appointment) :
    Except BookingFailure Appointment :=
  if a.status = .COMPLETED ∨ a.status = .CANCELLED then
    .error (.bookingError ("No se puede cancelar una cita con estado: " ++ a.status.display))
  else
    .ok { a with status := .CANCELLED, cancelled_at := some now,
                 internal_notes :=
                   if reason ≠ "" then
                     if a.internal_notes ≠ "" then
                       a.internal_notes ++ "\n\nCancelado: " ++ reason
                     else "Cancelado: " ++ reason
                   else a.internal_notes }

/-- `complete_appointment(appointment)` from `bookings.py`. -/
def complete_appointment (now : Int) (a : Appointment) (c : Customer) :
    Except BookingFailure (Appointment × Customer) :=
  if a.status ≠ .CONFIRMED then
    .error (.bookingError ("Solo se pueden completar citas confirmadas. Estado actual: "
      ++ a.status.display))
  else
    match end_time a with
    | none => .error .pyTypeError
    | some e =>
      if e > now then
        .error (.bookingError "No se puede completar una cita que aún no ha terminado")
      else
        .ok ({ a with status := .COMPLETED, completed_at := some now },
             { c with last_appointment_at := some now })

/-- `mark_no_show(appointment)` from `bookings.py`.  The timestamp rendering of the appended note (`strftime`) is abstracted to `toString`. -/
def mark_no_show (now : Int) (a : Appointment) : Except BookingFailure Appointment :=
  if a.status ≠ .CONFIRMED then
    .error (.bookingError ("Solo se pueden marcar como \x27no show\x27 citas confirmadas. Estado actual: "
      ++ a.status.display))
  else if a.scheduled_at > now then
    .error (.bookingError "No se puede marcar como \x27no show\x27 una cita futura")
  else
    .ok { a with status := .NO_SHOW,
                 internal_notes := a.internal_notes ++ "\n\nMarcado como No Show el "
                   ++ toString now }

/-- The appointment and customer rows of one tenant+service: the state one
booking transaction reads and writes. -/
structure BookingState where
  appointments : List Appointment
  customers : List Customer
deriving DecidableEq

/-- `is_slot_available(tenant, service, scheduled_at)` from `bookings.py`.
Times are minutes; `timedelta(days=1)` is 1440 minutes; the day start is the
local midnight (`replace(hour=0, ...)`), i.e. flooring to a multiple of
1440. -/
def is_slot_available (svc : Service) (appts : List Appointment) (t : Int) : Bool :=
  let endT := t + svc.duration_minutes
  let buffer := svc.buffer_time_minutes
  let overlapping := appts.any (fun a =>
    (a.status = .PENDING ∨ a.status = .CONFIRMED)
      ∧ ¬ (a.scheduled_at < t - svc.duration_minutes - buffer)
      ∧ ¬ (a.scheduled_at ≥ endT + buffer))
  if overlapping then false
  else
    let dayStart := 1440 * (t / 1440)
    let dayEnd := dayStart + 1440
    let daily := (appts.filter (fun a =>
      (a.status = .PENDING ∨ a.status = .CONFIRMED)
        ∧ dayStart ≤ a.scheduled_at ∧ a.scheduled_at < dayEnd)).length
    decide (daily < svc.max_bookings_per_day)

/-- The `customer_data` dict handed to `create_appointment`. -/
structure CustomerData where
  name : String
  phone : String
  email : Option String
deriving DecidableEq

/-- `create_appointment(tenant, service_id, customer_data, scheduled_at,
notes)` (notes defaults empty) from `bookings.py`: validates the slot, upserts the customer by
phone, and appends the new PENDING appointment with duration/price/currency
denormalized from the service. -/
def create_appointment (svc : Service) (now : Int) (cd : CustomerData)
    (scheduled_at : Int) (notes : String) (s : BookingState) :
    Except BookingFailure BookingState :=
  if ¬ svc.is_active then
    .error (.bookingError "Servicio no encontrado o inactivo")
  else if scheduled_at ≤ now then
    .error (.bookingError "No se pueden reservar citas en el pasado")
  else if scheduled_at > now + svc.advance_booking_days * 1440 then
    .error (.bookingError ("No se puede reservar con más de "
      ++ toString svc.advance_booking_days ++ " días de anticipación"))
  else if ¬ is_slot_available svc s.appointments scheduled_at then
    .error (.bookingError "Este horario no está disponible")
  else
    let customers :=
      match s.customers.find? (fun c => c.phone = cd.phone) with
      | none => s.customers ++
          [{ phone := cd.phone, name := cd.name, email := cd.email.getD "",
             last_appointment_at := none }]
      | some c =>
        if cd.name ≠ "" ∧ c.name ≠ cd.name then
          s.customers.map (fun c0 =>
            if c0.phone = cd.phone then
              { c0 with name := cd.name,
                        email := match cd.email with
                                 | some e => if e = "" then c0.email else e
                                 | none => c0.email }
            else c0)
        else s.customers
    .ok { appointments := s.appointments ++
            [{ customer_phone := cd.phone, scheduled_at := scheduled_at,
               duration_minutes := svc.duration_minutes, status := .PENDING,
               payment_status := .PENDING, total_amount := svc.price,
               currency := svc.currency, bancard_transaction_id := none,
               customer_notes := notes, internal_notes := "",
               confirmed_at := none, cancelled_at := none, completed_at := none }],
          customers := customers }

/-- `confirm_appointment` applied to the `i`-th row of the state (the caller
holds the instance; its customer row exists through the foreign key). -/
def confirm_at (now : Int) (ptid : Option String) (i : Nat) (s : BookingState) :
    Except BookingFailure BookingState :=
  match s.appointments[i]? with
  | none => .error .missingRow
  | some a =>
    match s.customers.find? (fun c => c.phone = a.customer_phone) with
    | none => .error .missingRow
    | some c =>
      match confirm_appointment now ptid a c with
      | .error e => .error e
      | .ok (a2, c2) =>
        .ok { appointments := s.appointments.set i a2,
              customers := s.customers.map (fun c0 =>
                if c0.phone = a.customer_phone then c2 else c0) }

/-- `cancel_appointment` applied to the `i`-th row of the state. -/
def cancel_at (now : Int) (reason : String) (i : Nat) (s : BookingState) :
    Except BookingFailure BookingState :=
  match s.appointments[i]? with
  | none => .error .missingRow
  | some a =>
    match cancel_appointment now reason a with
    | .error e => .error e
    | .ok a2 => .ok { s with appointments := s.appointments.set i a2 }

/-- `complete_appointment` applied to the `i`-th row of the state. -/
def complete_at (now : Int) (i : Nat) (s : BookingState) :
    Except BookingFailure BookingState :=
  match s.appointments[i]? with
  | none => .error .missingRow
  | some a =>
    match s.customers.find? (fun c => c.phone = a.customer_phone) with
    | none => .error .missingRow
    | some c =>
      match complete_appointment now a c with
      | .error e => .error e
      | .ok (a2, c2) =>
        .ok { appointments := s.appointments.set i a2,
              customers := s.customers.map (fun c0 =>
                if c0.phone = a.customer_phone then c2 else c0) }

/-- `mark_no_show` applied to the `i`-th row of the state. -/
def no_show_at (now : Int) (i : Nat) (s : BookingState) :
    Except BookingFailure BookingState :=
  match s.appointments[i]? with
  | none => .error .missingRow
  | some a =>
    match mark_no_show now a with
    | .error e => .error e
    | .ok a2 => .ok { s with appointments := s.appointments.set i a2 }

/-- One booking operation, as observable on the tenant+service rows. -/
inductive BStep (svc : Service) : BookingState → BookingState → Prop where
  | create (now : Int) (cd : CustomerData) (t : Int) (notes : String)
      (s s' : BookingState) (h : create_appointment svc now cd t notes s = .ok s') :
      BStep svc s s'
  | confirm (now : Int) (ptid : Option String) (i : Nat) (s s' : BookingState)
      (h : confirm_at now ptid i s = .ok s') : BStep svc s s'
  | cancel (now : Int) (reason : String) (i : Nat) (s s' : BookingState)
      (h : cancel_at now reason i s = .ok s') : BStep svc s s'
  | complete (now : Int) (i : Nat) (s s' : BookingState)
      (h : complete_at now i s = .ok s') : BStep svc s s'
  | noShow (now : Int) (i : Nat) (s s' : BookingState)
      (h : no_show_at now i s = .ok s') : BStep svc s s'

/-- States reachable from `s0` by the booking operations. -/
def BReachable (svc : Service) (s0 s : BookingState) : Prop :=
  Relation.ReflTransGen (BStep svc) s0 s

/-- A non-terminal appointment (PENDING or CONFIRMED). -/
def NonTerminal (a : Appointment) : Prop :=
  a.status = .PENDING ∨ a.status = .CONFIRMED

instance (a : Appointment) : Decidable (NonTerminal a) :=
  decidable_of_iff (a.status = .PENDING ∨ a.status = .CONFIRMED) Iff.rfl

/-- What every lifecycle wrapper does to the appointment list: one row is
replaced, its times unchanged, and a row that is non-terminal afterwards was
non-terminal before. -/
def StatusUpdateOK (s s' : BookingState) : Prop :=
  ∃ i a a2, s.appointments[i]? = some a ∧
    s'.appointments = s.appointments.set i a2 ∧
    a2.scheduled_at = a.scheduled_at ∧
    a2.duration_minutes = a.duration_minutes ∧
    (NonTerminal a2 → NonTerminal a)

/-- Two appointments separated by at least `duration + buffer` between
starts: their `[start, end + buffer)` windows — the buffer applied once, not
on both sides — do not overlap. -/
def Separated (svc : Service) (x y : Appointment) : Prop :=
  x.scheduled_at + svc.duration_minutes + svc.buffer_time_minutes ≤ y.scheduled_at ∨
  y.scheduled_at + svc.duration_minutes + svc.buffer_time_minutes ≤ x.scheduled_at

/-- Every appointment row carries the (denormalized) duration of the service. -/
def DurOK (svc : Service) (l : List Appointment) : Prop :=
  ∀ a ∈ l, a.duration_minutes = svc.duration_minutes

/-- Any two distinct non-terminal rows are `Separated`. -/
def SepOK (svc : Service) (l : List Appointment) : Prop :=
  ∀ i j (hi : i < l.length) (hj : j < l.length), i ≠ j →
    NonTerminal (l.get ⟨i, hi⟩) → NonTerminal (l.get ⟨j, hj⟩) →
    Separated svc (l.get ⟨i, hi⟩) (l.get ⟨j, hj⟩)

/-- A concrete service: 30-minute slots, 10-minute buffer. -/
def cexSvc : Service :=
  { duration_minutes := 30, price := 50, currency := "USD", is_active := true,
    buffer_time_minutes := 10, max_bookings_per_day := 20,
    advance_booking_days := 30 }

/-- A concrete customer row. -/
def cexCustomer : Customer :=
  { phone := "p1", name := "Ana", email := "", last_appointment_at := none }

/-- Customer data for bookings. -/
def cexCD : CustomerData := { name := "Ana", phone := "p1", email := none }

/-- Customer data of a second customer. -/
def cexCD2 : CustomerData := { name := "Eli", phone := "p2", email := none }

/-- The empty booking state. -/
def bkgd0 : BookingState := { appointments := [], customers := [] }

/-- `bkgd0` after `create_appointment` at minute 10 (now = 0). -/
def bkgd1 : BookingState :=
  ((create_appointment cexSvc 0 cexCD 10 "" bkgd0).toOption).getD bkgd0

/-- `bkgd1` after a second `create_appointment` at minute 51 (now = 0):
accepted, because the conflict check buffers only the candidate window. -/
def bkgd2 : BookingState :=
  ((create_appointment cexSvc 0 cexCD2 51 "" bkgd1).toOption).getD bkgd1

/-- A NO_SHOW appointment (terminal per §4.2). -/
def cexNoShowAppt : Appointment :=
  { customer_phone := "p1", scheduled_at := 0, duration_minutes := 30,
    status := .NO_SHOW, payment_status := .PAID, total_amount := 50,
    currency := "USD", bancard_transaction_id := none, customer_notes := "",
    internal_notes := "", confirmed_at := some 0, cancelled_at := none,
    completed_at := none }

/-- A COMPLETED appointment (terminal). -/
def cexCompletedAppt : Appointment :=
  { cexNoShowAppt with status := .COMPLETED, completed_at := some 40 }

/-- The NO_SHOW appointment after `cancel_appointment` at minute 40. -/
def cexNoShowCancelled : Appointment :=
  { cexNoShowAppt with status := .CANCELLED, cancelled_at := some 40 }

/-- A CONFIRMED appointment scheduled at 0 for 30 minutes. -/
def cexConfirmedAppt : Appointment :=
  { cexNoShowAppt with status := .CONFIRMED }

end BookingCore

namespace RaffleCore

theorem sweepTicket_consistent (now : Int) (t : TicketNumber) :
    TicketConsistent t → TicketConsistent (sweepTicket now t) := by
  intro h
  unfold sweepTicket
  split
  · simp [TicketConsistent]
  · exact h

theorem reserveTicket_consistent (numbers : List Int) (oid : Nat) (e : Int)
    (t : TicketNumber) : TicketConsistent t → TicketConsistent (reserveTicket numbers oid e t) := by
  intro h
  unfold reserveTicket
  split
  · simp [TicketConsistent]
  · exact h

theorem releaseTicket_consistent (oid : Nat) (t : TicketNumber) :
    TicketConsistent t → TicketConsistent (releaseTicket oid t) := by
  intro h
  unfold releaseTicket
  split
  · simp [TicketConsistent]
  · exact h

theorem soldTicket_consistent (oid : Nat) (t : TicketNumber) :
    TicketConsistent t → TicketConsistent (soldTicket oid t) := by
  intro h
  unfold soldTicket
  split
  · next hm => simp [TicketConsistent, hm]
  · exact h

theorem soldLinkedTicket_consistent (linked : List Int) (oid : Nat) (t : TicketNumber) :
    TicketConsistent t → TicketConsistent (soldLinkedTicket linked oid t) := by
  intro h
  unfold soldLinkedTicket
  split
  · simp [TicketConsistent]
  · exact h

/-- Inversion of a successful `reserve_specific` call: the created order id is
the next id and the new state is the swept state with the requested rows
reserved, the order appended and the join rows added. -/
theorem reserve_specific_shape {cfg : ReservationSettings} {now : Int}
    {numbers : List Int} {contact : Nat} {s s' : RaffleState} {oid : Nat}
    (h : reserve_specific cfg now numbers contact s = .ok (s', oid)) :
    oid = s.next_order_id ∧
    s' = { s with
            tickets := (s.tickets.map (sweepTicket now)).map
              (reserveTicket numbers s.next_order_id (now + cfg.RESERVATION_TIMEOUT_MINUTES)),
            orders := s.orders ++
              [{ id := s.next_order_id, contact := contact, qty := numbers.length,
                 total_amount := s.ticket_price * (numbers.length : Int),
                 status := .PENDING_PAYMENT, payment_proof_media_id := none,
                 paid_at := none,
                 expires_at := some (now + cfg.RESERVATION_TIMEOUT_MINUTES) }],
            next_order_id := s.next_order_id + 1,
            order_tickets := s.order_tickets ++ numbers.map (fun n => (s.next_order_id, n)) } := by
  simp only [reserve_specific] at h
  split_ifs at h
  all_goals first
    | exact Except.noConfusion h
    | (simp only [Except.ok.injEq, Prod.mk.injEq] at h
       exact ⟨h.2.symm, h.1.symm⟩)

/-- Inversion of a successful `reserve_random` call. -/
theorem reserve_random_shape {cfg : ReservationSettings} {now : Int} {qty : Nat}
    {sel : List Int} {contact : Nat} {s s' : RaffleState} {oid : Nat}
    (h : reserve_random cfg now qty sel contact s = .ok (s', oid)) :
    oid = s.next_order_id ∧
    s' = { s with
            tickets := (s.tickets.map (sweepTicket now)).map
              (reserveTicket sel s.next_order_id (now + cfg.RESERVATION_TIMEOUT_MINUTES)),
            orders := s.orders ++
              [{ id := s.next_order_id, contact := contact, qty := qty,
                 total_amount := s.ticket_price * (qty : Int),
                 status := .PENDING_PAYMENT, payment_proof_media_id := none,
                 paid_at := none,
                 expires_at := some (now + cfg.RESERVATION_TIMEOUT_MINUTES) }],
            next_order_id := s.next_order_id + 1,
            order_tickets := s.order_tickets ++ sel.map (fun n => (s.next_order_id, n)) } := by
  simp only [reserve_random] at h
  split_ifs at h
  all_goals first
    | exact Except.noConfusion h
    | (simp only [Except.ok.injEq, Prod.mk.injEq] at h
       exact ⟨h.2.symm, h.1.symm⟩)

/-- Inversion of a successful `release_order_reservations` call. -/
theorem release_shape {now : Int} {oid : Nat} {s s' : RaffleState} {n : Nat}
    (h : release_order_reservations now oid s = .ok (s', n)) :
    ∃ o, findOrder s oid = some o ∧
      (o.status = .DRAFT ∨ o.status = .PENDING_PAYMENT ∨ o.status = .EXPIRED) ∧
      n = (s.tickets.filter (fun t => t.reserved_by_order = some oid)).length ∧
      s' = order_status_changed now o.status oid
        { s with tickets := s.tickets.map (releaseTicket oid),
                 orders := updateOrder s.orders oid (fun o => { o with status := .CANCELLED }) } := by
  simp only [release_order_reservations] at h
  split at h
  · exact Except.noConfusion h
  · next o heq =>
    split_ifs at h with hst
    all_goals first
      | exact Except.noConfusion h
      | (simp only [Except.ok.injEq, Prod.mk.injEq] at h
         exact ⟨o, heq, hst, h.2.symm, h.1.symm⟩)

/-- Inversion of a successful `confirm_paid` call. -/
theorem confirm_paid_shape {now : Int} {oid : Nat} {proof : Option String}
    {s s' : RaffleState} {r : Nat}
    (h : confirm_paid now oid proof s = .ok (s', r)) :
    ∃ o, findOrder s oid = some o ∧ o.status = .PENDING_PAYMENT ∧
      (s.tickets.filter (fun t => t.reserved_by_order = some oid)).length ≠ 0 ∧
      r = oid ∧
      s' = order_status_changed now o.status oid
        { s with tickets := s.tickets.map (soldTicket oid),
                 orders := updateOrder s.orders oid (fun o =>
                   { o with status := .PAID, paid_at := some now,
                            payment_proof_media_id :=
                              storedProof proof o.payment_proof_media_id }) } := by
  simp only [confirm_paid] at h
  split at h
  · exact Except.noConfusion h
  · next o heq =>
    split_ifs at h with h1 h2
    all_goals first
      | exact Except.noConfusion h
      | (simp only [Except.ok.injEq, Prod.mk.injEq] at h
         exact ⟨o, heq, h1, h2, h.2.symm, h.1.symm⟩)
      | (simp only [Except.ok.injEq, Prod.mk.injEq] at h
         rw [ne_eq, not_not] at h1
         exact ⟨o, heq, h1, h2, h.2.symm, h.1.symm⟩)

/-- Whatever branch the post-save receiver takes, it only rewrites ticket rows
pointwise, preserving row count, numbers and field consistency. -/
theorem order_status_changed_tickets (now : Int) (prev : OrderStatus) (oid : Nat)
    (s : RaffleState) :
    ∃ f, (order_status_changed now prev oid s).tickets = s.tickets.map f ∧
      (∀ t, TicketConsistent t → TicketConsistent (f t)) ∧
      (∀ t, (f t).number = t.number) := by
  cases hfind : findOrder s oid with
  | none =>
    refine ⟨id, ?_, fun t ht => ht, fun t => rfl⟩
    simp [order_status_changed, hfind]
  | some o =>
    simp only [order_status_changed, hfind]
    split_ifs with h1 h2 h3 h4 h5
    all_goals first
      | (refine ⟨soldTicket oid, rfl, soldTicket_consistent oid, fun t => ?_⟩
         unfold soldTicket
         split <;> rfl)
      | (refine ⟨soldLinkedTicket ((s.order_tickets.filter (fun p => p.1 = oid)).map
            (fun p => p.2)) oid, rfl, soldLinkedTicket_consistent _ oid, fun t => ?_⟩
         unfold soldLinkedTicket
         split <;> rfl)
      | (refine ⟨releaseTicket oid, rfl, releaseTicket_consistent oid, fun t => ?_⟩
         unfold releaseTicket
         split <;> rfl)
      | (refine ⟨id, ?_, fun t ht => ht, fun t => rfl⟩
         simp)

/-- `mark_as_expired` also only rewrites ticket rows pointwise. -/
theorem mark_as_expired_tickets (now : Int) (oid : Nat) (s : RaffleState) :
    ∃ f, (mark_as_expired now oid s).1.tickets = s.tickets.map f ∧
      (∀ t, TicketConsistent t → TicketConsistent (f t)) ∧
      (∀ t, (f t).number = t.number) := by
  cases hfind : findOrder s oid with
  | none =>
    refine ⟨id, ?_, fun t ht => ht, fun t => rfl⟩
    simp [mark_as_expired, hfind]
  | some o =>
    simp only [mark_as_expired, hfind]
    split_ifs with h1
    · exact order_status_changed_tickets now o.status oid
        { s with orders := updateOrder s.orders oid (fun o => { o with status := .EXPIRED }) }
    · exact ⟨id, by simp, fun t ht => ht, fun t => rfl⟩


/-- Every operation rewrites the ticket rows of the raffle pointwise (no row is
created or deleted), and each rewrite preserves the field-consistency
predicate. -/
theorem RStep_tickets {cfg : ReservationSettings} {s s' : RaffleState}
    (h : RStep cfg s s') :
    ∃ f, s'.tickets = s.tickets.map f ∧
      ∀ t, TicketConsistent t → TicketConsistent (f t) := by
  cases h with
  | reserveSpecific now numbers contact _ _ oid hok =>
    obtain ⟨-, hs⟩ := reserve_specific_shape hok
    refine ⟨(reserveTicket numbers s.next_order_id (now + cfg.RESERVATION_TIMEOUT_MINUTES))
      ∘ (sweepTicket now), ?_, ?_⟩
    · rw [hs]; simp [List.map_map]
    · intro t ht
      exact reserveTicket_consistent _ _ _ _ (sweepTicket_consistent _ _ ht)
  | reserveRandom now qty sel contact _ _ oid hok =>
    obtain ⟨-, hs⟩ := reserve_random_shape hok
    refine ⟨(reserveTicket sel s.next_order_id (now + cfg.RESERVATION_TIMEOUT_MINUTES))
      ∘ (sweepTicket now), ?_, ?_⟩
    · rw [hs]; simp [List.map_map]
    · intro t ht
      exact reserveTicket_consistent _ _ _ _ (sweepTicket_consistent _ _ ht)
  | release now oid _ _ n hok =>
    obtain ⟨o, -, -, -, hs⟩ := release_shape hok
    obtain ⟨g, hg, hgc, -⟩ := order_status_changed_tickets now o.status oid
      { s with tickets := s.tickets.map (releaseTicket oid),
               orders := updateOrder s.orders oid (fun o => { o with status := .CANCELLED }) }
    refine ⟨g ∘ (releaseTicket oid), ?_, ?_⟩
    · rw [hs, hg]; simp [List.map_map]
    · intro t ht
      exact hgc _ (releaseTicket_consistent _ _ ht)
  | confirmPaid now oid proof _ _ r hok =>
    obtain ⟨o, -, -, -, -, hs⟩ := confirm_paid_shape hok
    obtain ⟨g, hg, hgc, -⟩ := order_status_changed_tickets now o.status oid
      { s with tickets := s.tickets.map (soldTicket oid),
               orders := updateOrder s.orders oid (fun o =>
                 { o with status := .PAID, paid_at := some now,
                          payment_proof_media_id :=
                            storedProof proof o.payment_proof_media_id }) }
    refine ⟨g ∘ (soldTicket oid), ?_, ?_⟩
    · rw [hs, hg]; simp [List.map_map]
    · intro t ht
      exact hgc _ (soldTicket_consistent _ _ ht)
  | markExpired now oid _ =>
    obtain ⟨f, hf, hfc, -⟩ := mark_as_expired_tickets now oid s
    exact ⟨f, hf, hfc⟩

/-- Each row has one status, so SOLD rows and RESERVED rows together never
outnumber the rows. -/
theorem sold_add_reserved_le (l : List TicketNumber) :
    (l.filter (fun t => t.status = .SOLD)).length
      + (l.filter (fun t => t.status = .RESERVED)).length ≤ l.length := by
  induction l with
  | nil => simp
  | cons t l ih =>
    by_cases hs : t.status = .SOLD <;> by_cases hr : t.status = .RESERVED <;>
      simp [List.filter_cons, hs, hr] <;> omega


/-- C1: for a raffle whose tickets have been generated, in every state
reachable by the allocation and order-lifecycle operations, the number of
SOLD rows plus the number of RESERVED rows is at most
`total_tickets = max_number - min_number + 1`. -/
theorem no_oversell (cfg : ReservationSettings) (minN maxN price : Int)
    (s : RaffleState) (hmin : minN ≤ maxN)
    (hr : RReachable cfg (generate_tickets minN maxN price) s) :
    (countSold s : Int) + (countReserved s : Int) ≤ maxN - minN + 1 := by
  have hlen : s.tickets.length = (generate_tickets minN maxN price).tickets.length := by
    induction hr with
    | refl => rfl
    | tail _hbc hstep ih =>
      obtain ⟨f, hf, -⟩ := RStep_tickets hstep
      rw [hf, List.length_map]
      exact ih
  have hinit : (generate_tickets minN maxN price).tickets.length = (maxN + 1 - minN).toNat :=
    (List.length_map _ _).trans (List.length_range _)
  have hcount := sold_add_reserved_le s.tickets
  rw [hinit] at hlen
  unfold countSold countReserved
  omega

/-- Witness for `no_oversell` at a freshly generated two-ticket raffle. -/
theorem no_oversell_witness :
    (countSold (generate_tickets 1 2 10) : Int)
      + (countReserved (generate_tickets 1 2 10) : Int) ≤ 2 - 1 + 1 :=
  no_oversell ⟨15, 1, 50⟩ 1 2 10 _ (by decide) Relation.ReflTransGen.refl

/-- C3 (amended): in every reachable state, a RESERVED row has both
`reserved_by_order` and `reserved_until` set and an AVAILABLE row has both
null, but a SOLD row only has `reserved_until` null — `confirm_paid` retains
`reserved_by_order` as a historical link. -/
theorem ticket_fields_invariant (cfg : ReservationSettings) (minN maxN price : Int)
    (s : RaffleState)
    (hr : RReachable cfg (generate_tickets minN maxN price) s) :
    ∀ t ∈ s.tickets, TicketConsistent t := by
  induction hr with
  | refl =>
    intro t ht
    simp only [generate_tickets, List.mem_map] at ht
    obtain ⟨i, -, rfl⟩ := ht
    simp [TicketConsistent]
  | tail _hbc hstep ih =>
    obtain ⟨f, hf, hc⟩ := RStep_tickets hstep
    intro t ht
    rw [hf] at ht
    obtain ⟨u, hu, rfl⟩ := List.mem_map.1 ht
    exact hc u (ih u hu)

/-- Witness for `ticket_fields_invariant` on the first generated row. -/
theorem ticket_fields_invariant_witness :
    TicketConsistent { number := 1, status := .AVAILABLE,
                       reserved_by_order := none, reserved_until := none } :=
  ticket_fields_invariant ⟨15, 1, 50⟩ 1 2 10 _ Relation.ReflTransGen.refl _ (by decide)


/-- C3 counterexample: reserving ticket 1 and confirming payment is a
reachable history after which ticket 1 is SOLD yet still references order 0,
so "AVAILABLE/SOLD implies reserved_by_order and reserved_until are both
null" fails for SOLD rows. -/
theorem sold_ticket_keeps_order_link :
    RReachable cfgDefault cexBase cexPaid ∧
    cexPaid.tickets.any
      (fun t => t.status = .SOLD ∧ t.reserved_by_order ≠ none) = true := by
  constructor
  · exact Relation.ReflTransGen.tail
      (Relation.ReflTransGen.tail Relation.ReflTransGen.refl
        (RStep.reserveSpecific 0 [1] 7 cexBase cexReserved 0 (by decide)))
      (RStep.confirmPaid 1 0 none cexReserved cexPaid 0 (by decide))
  · decide


/-- Updating the row with id `oid` commutes with looking that row up. -/
theorem find?_updateOrder (l : List Order) (oid : Nat) (f : Order → Order)
    (hf : ∀ o, (f o).id = o.id) :
    (updateOrder l oid f).find? (fun o => o.id = oid) =
      (l.find? (fun o => o.id = oid)).map f := by
  induction l with
  | nil => rfl
  | cons o l ih =>
    by_cases h : o.id = oid
    · simp [updateOrder, List.find?_cons, h, hf]
    · simp [updateOrder, List.find?_cons, h]
      simpa [updateOrder] using ih

theorem releaseTicket_idem (oid : Nat) (t : TicketNumber) :
    releaseTicket oid (releaseTicket oid t) = releaseTicket oid t := by
  by_cases h : t.reserved_by_order = some oid <;> simp [releaseTicket, h]

theorem soldTicket_idem (oid : Nat) (t : TicketNumber) :
    soldTicket oid (soldTicket oid t) = soldTicket oid t := by
  by_cases h : t.reserved_by_order = some oid <;> simp [soldTicket, h]

theorem map_self_idem {α : Type} {f : α → α} (hf : ∀ x, f (f x) = f x)
    (l : List α) : (l.map f).map f = l.map f := by
  induction l with
  | nil => rfl
  | cons x l ih => simp only [List.map_cons, hf, ih]

/-- Full effect of a successful `release_order_reservations` call: the
released count is the number of rows the order held, those rows become
AVAILABLE with order and expiry cleared (the post-save signal re-releases
them, a no-op), and the order row is CANCELLED. -/
theorem release_ok_full (now : Int) (oid : Nat) (s : RaffleState) (o : Order)
    (hfind : findOrder s oid = some o)
    (hst : o.status = .DRAFT ∨ o.status = .PENDING_PAYMENT ∨ o.status = .EXPIRED) :
    ∃ s', release_order_reservations now oid s =
        .ok (s', (s.tickets.filter (fun t => t.reserved_by_order = some oid)).length) ∧
      s'.tickets = s.tickets.map (releaseTicket oid) ∧
      s'.orders = updateOrder s.orders oid (fun o => { o with status := .CANCELLED }) ∧
      findOrder s' oid = some { o with status := .CANCELLED } := by
  have hne : o.status ≠ .CANCELLED := by rcases hst with h | h | h <;> simp [h]
  have hfind1 : findOrder
      ({ s with
          tickets := s.tickets.map (releaseTicket oid),
          orders := updateOrder s.orders oid (fun o => { o with status := .CANCELLED }) }) oid
      = some ({ o with status := .CANCELLED }) := by
    unfold findOrder
    show (updateOrder s.orders oid (fun o => { o with status := .CANCELLED })).find?
        (fun o => o.id = oid) = _
    rw [find?_updateOrder s.orders oid (fun o => { o with status := .CANCELLED })
      (fun o => rfl)]
    unfold findOrder at hfind
    rw [hfind]
    rfl
  refine ⟨order_status_changed now o.status oid
      ({ s with
          tickets := s.tickets.map (releaseTicket oid),
          orders := updateOrder s.orders oid (fun o => { o with status := .CANCELLED }) }),
    ?_, ?_, ?_, ?_⟩
  · simp only [release_order_reservations, hfind]
    rw [if_neg (not_not_intro hst)]
  · simp only [order_status_changed, hfind1]
    rw [if_neg hne, if_neg (by simp), if_pos (by simp)]
    exact map_self_idem (releaseTicket_idem oid) s.tickets
  · simp only [order_status_changed, hfind1]
    rw [if_neg hne, if_neg (by simp), if_pos (by simp)]
  · simp only [order_status_changed, hfind1]
    rw [if_neg hne, if_neg (by simp), if_pos (by simp)]
    exact hfind1


/-- C2 counterexample: after reserving ticket 1 (state `cexReserved`,
order 0 PENDING_PAYMENT), the first release succeeds, but the second call on
the same order raises a ReservationError — the order is now CANCELLED, which
the status guard rejects — so release is not idempotent as claimed. -/
theorem release_second_call_raises :
    release_order_reservations 0 0 cexReserved = .ok (cexReleased, 1) ∧
    release_order_reservations 5 0 cexReleased =
      .error ⟨"Cannot release tickets for order with status: CANCELLED"⟩ := by
  constructor <;> decide

/-- C2 (amended): releasing an order in DRAFT, PENDING_PAYMENT or EXPIRED
frees all its tickets (AVAILABLE, order/expiry cleared) and cancels the
order; calling `releaseReservations` again on the same order leaves that end
state intact but RAISES a ReservationError (status guard: the order is now
CANCELLED) instead of returning — the exception aborts the second
transaction before any write. -/
theorem release_not_idempotent (now now2 : Int) (oid : Nat) (s : RaffleState)
    (o : Order) (hfind : findOrder s oid = some o)
    (hst : o.status = .DRAFT ∨ o.status = .PENDING_PAYMENT ∨ o.status = .EXPIRED) :
    ∃ s', release_order_reservations now oid s =
        .ok (s', (s.tickets.filter (fun t => t.reserved_by_order = some oid)).length) ∧
      s'.tickets = s.tickets.map (releaseTicket oid) ∧
      findOrder s' oid = some { o with status := .CANCELLED } ∧
      release_order_reservations now2 oid s' =
        .error ⟨"Cannot release tickets for order with status: CANCELLED"⟩ := by
  obtain ⟨s', h1, h2, -, h4⟩ := release_ok_full now oid s o hfind hst
  refine ⟨s', h1, h2, h4, ?_⟩
  simp only [release_order_reservations, h4]
  rw [if_pos (by simp)]
  decide

/-- Witness for `release_not_idempotent` on the concrete one-ticket order. -/
theorem release_not_idempotent_witness :
    ∃ s', release_order_reservations 0 0 cexReserved =
        .ok (s', (cexReserved.tickets.filter
          (fun t => t.reserved_by_order = some 0)).length) ∧
      s'.tickets = cexReserved.tickets.map (releaseTicket 0) ∧
      findOrder s' 0 = some { cexOrder with status := .CANCELLED } ∧
      release_order_reservations 5 0 s' =
        .error ⟨"Cannot release tickets for order with status: CANCELLED"⟩ :=
  release_not_idempotent 0 5 0 cexReserved cexOrder (by decide) (by decide)

/-- C10: releasing an order (DRAFT, PENDING_PAYMENT or EXPIRED) that holds no
tickets succeeds without error, returns a released count of 0, and still
cancels the order. -/
theorem release_with_no_tickets (now : Int) (oid : Nat) (s : RaffleState)
    (o : Order) (hfind : findOrder s oid = some o)
    (hst : o.status = .DRAFT ∨ o.status = .PENDING_PAYMENT ∨ o.status = .EXPIRED)
    (hnone : s.tickets.filter (fun t => t.reserved_by_order = some oid) = []) :
    ∃ s', release_order_reservations now oid s = .ok (s', 0) ∧
      findOrder s' oid = some { o with status := .CANCELLED } := by
  obtain ⟨s', h1, -, -, h4⟩ := release_ok_full now oid s o hfind hst
  rw [hnone] at h1
  exact ⟨s', h1, h4⟩

/-- Witness for `release_with_no_tickets` on a DRAFT order with no tickets. -/
theorem release_with_no_tickets_witness :
    ∃ s', release_order_reservations 3 0 cexDraftState = .ok (s', 0) ∧
      findOrder s' 0 = some { cexDraftOrder with status := .CANCELLED } :=
  release_with_no_tickets 3 0 cexDraftState cexDraftOrder
    (by decide) (by decide) (by decide)

theorem soldTicket_keeps_order (oid : Nat) (t : TicketNumber) :
    (soldTicket oid t).reserved_by_order = t.reserved_by_order := by
  unfold soldTicket
  split <;> rfl


/-- C6: `confirm_paid` fails with a typed error when the order is not
PENDING_PAYMENT; fails with "No tickets found for this order" when no ticket
row references the order; otherwise it marks every such row SOLD with
`reserved_until` cleared and `reserved_by_order` retained (`soldTicket`),
and sets the order PAID with `paid_at = now`, storing the proof id when one
is given (`storedProof`). -/
theorem confirm_paid_spec (now : Int) (proof : Option String) (oid : Nat)
    (s : RaffleState) (o : Order) (hfind : findOrder s oid = some o) :
    (o.status ≠ .PENDING_PAYMENT →
      confirm_paid now oid proof s =
        .error ⟨"Cannot confirm order with status: " ++ o.status.str⟩) ∧
    (o.status = .PENDING_PAYMENT →
      s.tickets.filter (fun t => t.reserved_by_order = some oid) = [] →
      confirm_paid now oid proof s = .error ⟨"No tickets found for this order"⟩) ∧
    (o.status = .PENDING_PAYMENT →
      s.tickets.filter (fun t => t.reserved_by_order = some oid) ≠ [] →
      ∃ s', confirm_paid now oid proof s = .ok (s', oid) ∧
        s'.tickets = s.tickets.map (soldTicket oid) ∧
        findOrder s' oid = some
          { o with status := .PAID, paid_at := some now,
                   payment_proof_media_id :=
                     storedProof proof o.payment_proof_media_id }) := by
  refine ⟨?_, ?_, ?_⟩
  · intro hs
    simp only [confirm_paid, hfind]
    rw [if_pos hs]
  · intro hs hempty
    simp only [confirm_paid, hfind]
    rw [if_neg (by simp [hs]), if_pos (by rw [hempty]; rfl)]
  · intro hs hne
    have hfind1 : findOrder
        ({ s with
            tickets := s.tickets.map (soldTicket oid),
            orders := updateOrder s.orders oid (fun o =>
              { o with status := .PAID, paid_at := some now,
                       payment_proof_media_id :=
                         storedProof proof o.payment_proof_media_id }) }) oid
        = some ({ o with status := .PAID, paid_at := some now,
                         payment_proof_media_id :=
                           storedProof proof o.payment_proof_media_id }) := by
      unfold findOrder
      show (updateOrder s.orders oid (fun o =>
          { o with status := .PAID, paid_at := some now,
                   payment_proof_media_id :=
                     storedProof proof o.payment_proof_media_id })).find?
          (fun o => o.id = oid) = _
      rw [find?_updateOrder s.orders oid (fun o =>
        { o with status := .PAID, paid_at := some now,
                 payment_proof_media_id :=
                   storedProof proof o.payment_proof_media_id }) (fun o => rfl)]
      unfold findOrder at hfind
      rw [hfind]
      rfl
    have hany : (s.tickets.map (soldTicket oid)).any
        (fun t => t.reserved_by_order = some oid) = true := by
      obtain ⟨t, htmem⟩ := List.exists_mem_of_ne_nil _ hne
      have hmem := List.mem_filter.1 htmem
      refine List.any_eq_true.2 ⟨soldTicket oid t, List.mem_map_of_mem _ hmem.1, ?_⟩
      rw [soldTicket_keeps_order]
      exact hmem.2
    refine ⟨order_status_changed now o.status oid
        ({ s with
            tickets := s.tickets.map (soldTicket oid),
            orders := updateOrder s.orders oid (fun o =>
              { o with status := .PAID, paid_at := some now,
                       payment_proof_media_id :=
                         storedProof proof o.payment_proof_media_id }) }),
      ?_, ?_, ?_⟩
    · simp only [confirm_paid, hfind]
      rw [if_neg (by simp [hs]), if_neg (by
        intro hzero
        exact hne (List.length_eq_zero.mp hzero))]
    · simp only [order_status_changed, hfind1]
      rw [if_neg (by simp [hs]), if_pos (by simp)]
      rw [if_pos hany]
      exact map_self_idem (soldTicket_idem oid) s.tickets
    · simp only [order_status_changed, hfind1]
      rw [if_neg (by simp [hs]), if_pos (by simp)]
      rw [if_pos hany, if_neg (by simp)]
      exact hfind1

/-- Witness for `confirm_paid_spec`: confirming the concrete one-ticket
reservation. -/
theorem confirm_paid_spec_witness :
    ∃ s', confirm_paid 1 0 none cexReserved = .ok (s', 0) ∧
      s'.tickets = cexReserved.tickets.map (soldTicket 0) ∧
      findOrder s' 0 = some
        { cexOrder with status := .PAID, paid_at := some 1,
                        payment_proof_media_id :=
                          storedProof none cexOrder.payment_proof_media_id } :=
  (confirm_paid_spec 1 none 0 cexReserved cexOrder (by decide)).2.2
    (by decide) (by decide)


theorem sweepTicket_number (now : Int) (t : TicketNumber) :
    (sweepTicket now t).number = t.number := by
  unfold sweepTicket
  split <;> rfl

theorem reserveTicket_number (numbers : List Int) (oid : Nat) (e : Int)
    (t : TicketNumber) : (reserveTicket numbers oid e t).number = t.number := by
  unfold reserveTicket
  split <;> rfl

/-- An expired hold is swept to a cleared AVAILABLE row. -/
theorem sweepTicket_expired {now u : Int} {t : TicketNumber}
    (hst : t.status = .RESERVED) (hu : t.reserved_until = some u) (hlt : u < now) :
    sweepTicket now t =
      { t with status := .AVAILABLE, reserved_by_order := none,
               reserved_until := none } := by
  unfold sweepTicket
  rw [if_pos ⟨hst, u, hu, hlt⟩]

/-- C4: a ticket whose reservation has expired (`RESERVED`,
`reserved_until < now`) is released by the sweep at the head of the very next
`reserve_specific` / `reserve_random` call on its raffle, before availability
is checked: requesting exactly that number succeeds, and afterwards every row
carrying the number belongs to the new order — in particular not to the old
one — so the ticket is never held by two orders. -/
theorem expired_hold_reallocated (cfg : ReservationSettings) (now : Int)
    (contact oldOid : Nat) (s : RaffleState) (pre post : List TicketNumber)
    (t : TicketNumber) (u : Int)
    (hact : s.is_active = true)
    (hmin : cfg.MIN_TICKETS_PER_ORDER ≤ 1) (hmax : 1 ≤ cfg.MAX_TICKETS_PER_ORDER)
    (htks : s.tickets = pre ++ t :: post)
    (hst : t.status = .RESERVED) (hu : t.reserved_until = some u) (hlt : u < now)
    (hold : t.reserved_by_order = some oldOid) (hfresh : oldOid ≠ s.next_order_id)
    (hlo : s.min_number ≤ t.number) (hhi : t.number ≤ s.max_number)
    (huniq : ∀ x ∈ pre ++ post, x.number ≠ t.number) :
    ∃ s', reserve_specific cfg now [t.number] contact s = .ok (s', s.next_order_id) ∧
      reserve_random cfg now 1 [t.number] contact s = .ok (s', s.next_order_id) ∧
      (∀ x ∈ s'.tickets, x.number = t.number →
        x.status = .RESERVED ∧ x.reserved_by_order = some s.next_order_id ∧
        x.reserved_until = some (now + cfg.RESERVATION_TIMEOUT_MINUTES)) ∧
      (∀ x ∈ s'.tickets, x.reserved_by_order = some oldOid → x.number ≠ t.number) := by
  have hswT := @sweepTicket_expired now u t hst hu hlt
  have hswept : s.tickets.map (sweepTicket now)
      = pre.map (sweepTicket now) ++ sweepTicket now t :: post.map (sweepTicket now) := by
    rw [htks, List.map_append, List.map_cons]
  have hselect : (s.tickets.map (sweepTicket now)).filter
      (fun x => x.number ∈ [t.number]) = [sweepTicket now t] := by
    rw [hswept, List.filter_append, List.filter_cons]
    have hpre : (pre.map (sweepTicket now)).filter (fun x => x.number ∈ [t.number]) = [] := by
      refine List.filter_eq_nil_iff.2 ?_
      intro x hx
      obtain ⟨y, hy, rfl⟩ := List.mem_map.1 hx
      simp [sweepTicket_number, huniq y (List.mem_append_left _ hy)]
    have hpost : (post.map (sweepTicket now)).filter (fun x => x.number ∈ [t.number]) = [] := by
      refine List.filter_eq_nil_iff.2 ?_
      intro x hx
      obtain ⟨y, hy, rfl⟩ := List.mem_map.1 hx
      simp [sweepTicket_number, huniq y (List.mem_append_right _ hy)]
    rw [hpre, hpost, if_pos (by simp [sweepTicket_number])]
    rfl
  have hcall : reserve_specific cfg now [t.number] contact s =
      .ok ({ s with
              tickets := (s.tickets.map (sweepTicket now)).map
                (reserveTicket [t.number] s.next_order_id
                  (now + cfg.RESERVATION_TIMEOUT_MINUTES)),
              orders := s.orders ++
                [{ id := s.next_order_id, contact := contact, qty := 1,
                   total_amount := s.ticket_price * ((1 : Nat) : Int),
                   status := .PENDING_PAYMENT, payment_proof_media_id := none,
                   paid_at := none,
                   expires_at := some (now + cfg.RESERVATION_TIMEOUT_MINUTES) }],
              next_order_id := s.next_order_id + 1,
              order_tickets := s.order_tickets ++ [(s.next_order_id, t.number)] },
           s.next_order_id) := by
    simp only [reserve_specific]
    rw [if_neg (not_not_intro hact)]
    rw [if_neg (by simpa using Nat.not_lt.2 hmin)]
    rw [if_neg (by simpa using Nat.not_lt.2 hmax)]
    rw [if_neg (by
      simp only [ne_eq, not_not]
      refine List.filter_eq_nil_iff.2 ?_
      intro n hn
      rw [List.mem_singleton.1 hn]
      simp [not_lt.2 hlo, not_lt.2 hhi, not_or])]
    rw [if_neg (by simp)]
    rw [if_neg (by rw [hselect]; simp)]
    rw [if_neg (by
      rw [hselect]
      simp [hswT])]
    rfl
  refine ⟨_, hcall, ?_, ?_, ?_⟩
  · -- the random entry point accepts the sample [t.number] and builds the same state
    simp only [reserve_random]
    rw [if_neg (not_not_intro hact)]
    rw [if_neg (Nat.not_lt.2 hmin)]
    rw [if_neg (Nat.not_lt.2 hmax)]
    have hmemavail : sweepTicket now t ∈
        (s.tickets.map (sweepTicket now)).filter (fun x => x.status = .AVAILABLE) := by
      refine List.mem_filter.2 ⟨?_, by simp [hswT]⟩
      rw [hswept]
      exact List.mem_append_right _ (List.mem_cons_self _ _)
    rw [if_neg (by
      have := List.length_pos.2 (List.ne_nil_of_mem hmemavail)
      omega)]
    rw [if_neg (not_not_intro ⟨rfl, List.nodup_singleton _, by
      intro n hn
      rw [List.mem_singleton.1 hn]
      exact List.mem_map.2 ⟨sweepTicket now t, hmemavail, sweepTicket_number now t⟩⟩)]
    rfl
  · intro x hx hnum
    rw [htks] at hx
    simp only [List.map_append, List.map_cons, List.mem_append, List.mem_cons] at hx
    rcases hx with hx | hx | hx
    · obtain ⟨y, hy, rfl⟩ := List.mem_map.1 hx
      obtain ⟨z, hz, rfl⟩ := List.mem_map.1 hy
      rw [reserveTicket_number, sweepTicket_number] at hnum
      exact absurd hnum (huniq z (List.mem_append_left _ hz))
    · subst hx
      rw [hswT]
      unfold reserveTicket
      rw [if_pos (by simp)]
      exact ⟨rfl, rfl, rfl⟩
    · obtain ⟨y, hy, rfl⟩ := List.mem_map.1 hx
      obtain ⟨z, hz, rfl⟩ := List.mem_map.1 hy
      rw [reserveTicket_number, sweepTicket_number] at hnum
      exact absurd hnum (huniq z (List.mem_append_right _ hz))
  · intro x hx hor
    rw [htks] at hx
    simp only [List.map_append, List.map_cons, List.mem_append, List.mem_cons] at hx
    rcases hx with hx | hx | hx
    · obtain ⟨y, hy, rfl⟩ := List.mem_map.1 hx
      obtain ⟨z, hz, rfl⟩ := List.mem_map.1 hy
      rw [reserveTicket_number, sweepTicket_number]
      exact huniq z (List.mem_append_left _ hz)
    · subst hx
      rw [hswT] at hor
      unfold reserveTicket at hor
      rw [if_pos (by simp)] at hor
      exact absurd (Option.some.inj hor).symm hfresh
    · obtain ⟨y, hy, rfl⟩ := List.mem_map.1 hx
      obtain ⟨z, hz, rfl⟩ := List.mem_map.1 hy
      rw [reserveTicket_number, sweepTicket_number]
      exact huniq z (List.mem_append_right _ hz)


/-- Witness for `expired_hold_reallocated` at time 100 on the concrete raffle
with an expired hold on ticket 1. -/
theorem expired_hold_reallocated_witness :
    ∃ s', reserve_specific cfgDefault 100 [cexExpiredTicket.number] 8 cexExpired
        = .ok (s', cexExpired.next_order_id) ∧
      reserve_random cfgDefault 100 1 [cexExpiredTicket.number] 8 cexExpired
        = .ok (s', cexExpired.next_order_id) ∧
      (∀ x ∈ s'.tickets, x.number = cexExpiredTicket.number →
        x.status = .RESERVED ∧ x.reserved_by_order = some cexExpired.next_order_id ∧
        x.reserved_until = some (100 + cfgDefault.RESERVATION_TIMEOUT_MINUTES)) ∧
      (∀ x ∈ s'.tickets, x.reserved_by_order = some 0 →
        x.number ≠ cexExpiredTicket.number) :=
  expired_hold_reallocated cfgDefault 100 8 0 cexExpired [] [cexOtherTicket]
    cexExpiredTicket 5 (by decide) (by decide) (by decide) (by decide) (by decide)
    (by decide) (by decide) (by decide) (by decide) (by decide) (by decide) (by decide)


/-- C8: on a fresh active raffle with numbers 1-10 all AVAILABLE and
ticket_price 10 (per-order bounds 1-50, 15-minute holds), reserving [3,4,5]
for contact 70 returns order 0 with qty 3, total 30, PENDING_PAYMENT, and
leaves exactly tickets 3, 4 and 5 RESERVED; a subsequent `reserve_specific`
of [4,6] for contact 71 before any expiry fails with
"Tickets not available: 4" (and, raising, changes no state). -/
theorem scenario_specific_then_conflict :
    reserve_specific cfgDefault 0 [3, 4, 5] 70 (generate_tickets 1 10 10)
      = .ok (c8After, 0) ∧
    findOrder c8After 0 = some
      { id := 0, contact := 70, qty := 3, total_amount := 30,
        status := .PENDING_PAYMENT, payment_proof_media_id := none,
        paid_at := none, expires_at := some 15 } ∧
    (∀ x ∈ c8After.tickets,
      ((x.number = 3 ∨ x.number = 4 ∨ x.number = 5) ↔ x.status = .RESERVED)) ∧
    reserve_specific cfgDefault 0 [4, 6] 71 c8After
      = .error ⟨"Tickets not available: 4"⟩ := by
  refine ⟨by decide, by decide, by decide, by decide⟩

end RaffleCore

namespace BookingCore

/-- C5 counterexample: NO_SHOW is terminal per §4.2, yet `cancel_appointment`
only rejects COMPLETED and CANCELLED, so it accepts a NO_SHOW appointment and
moves it to CANCELLED. -/
theorem cancel_accepts_no_show :
    cancel_appointment 40 "" cexNoShowAppt = .ok cexNoShowCancelled ∧
    cexNoShowCancelled.status ≠ cexNoShowAppt.status := by
  refine ⟨by decide, by decide⟩

/-- C5 (amended): `confirm` rejects every status except PENDING, `complete`
and `markNoShow` reject every status except CONFIRMED, and `cancel` rejects
COMPLETED and CANCELLED — each with a BookingError and (the exception
aborting the transaction) no state change.  COMPLETED and CANCELLED are
therefore fully terminal, but NO_SHOW is not: `cancel` accepts it and moves
it to CANCELLED. -/
theorem lifecycle_state_guards (now : Int) (ptid : Option String)
    (reason : String) (a : Appointment) (c : Customer) :
    ((a.status = .COMPLETED ∨ a.status = .CANCELLED) →
      (∃ m, confirm_appointment now ptid a c = .error (.bookingError m)) ∧
      (∃ m, cancel_appointment now reason a = .error (.bookingError m)) ∧
      (∃ m, complete_appointment now a c = .error (.bookingError m)) ∧
      (∃ m, mark_no_show now a = .error (.bookingError m))) ∧
    (a.status ≠ .PENDING →
      ∃ m, confirm_appointment now ptid a c = .error (.bookingError m)) ∧
    (a.status ≠ .CONFIRMED →
      (∃ m, complete_appointment now a c = .error (.bookingError m)) ∧
      (∃ m, mark_no_show now a = .error (.bookingError m))) ∧
    (a.status = .NO_SHOW →
      ∃ a2, cancel_appointment now reason a = .ok a2 ∧ a2.status = .CANCELLED) := by
  have hconfirm : a.status ≠ .PENDING →
      ∃ m, confirm_appointment now ptid a c = .error (.bookingError m) := by
    intro hne
    simp only [confirm_appointment]
    rw [if_pos hne]
    exact ⟨_, rfl⟩
  have hcomplete : a.status ≠ .CONFIRMED →
      ∃ m, complete_appointment now a c = .error (.bookingError m) := by
    intro hne
    simp only [complete_appointment]
    rw [if_pos hne]
    exact ⟨_, rfl⟩
  have hnoshow : a.status ≠ .CONFIRMED →
      ∃ m, mark_no_show now a = .error (.bookingError m) := by
    intro hne
    simp only [mark_no_show]
    rw [if_pos hne]
    exact ⟨_, rfl⟩
  refine ⟨?_, hconfirm, fun h => ⟨hcomplete h, hnoshow h⟩, ?_⟩
  · intro hterm
    have h1 : a.status ≠ .PENDING := by rcases hterm with h | h <;> simp [h]
    have h2 : a.status ≠ .CONFIRMED := by rcases hterm with h | h <;> simp [h]
    refine ⟨hconfirm h1, ?_, hcomplete h2, hnoshow h2⟩
    simp only [cancel_appointment]
    rw [if_pos hterm]
    exact ⟨_, rfl⟩
  · intro hns
    simp only [cancel_appointment]
    rw [if_neg (by simp [hns])]
    exact ⟨_, rfl, rfl⟩

/-- Witness for `lifecycle_state_guards`: every lifecycle operation rejects a
COMPLETED appointment. -/
theorem lifecycle_state_guards_witness :
    (∃ m, confirm_appointment 40 none cexCompletedAppt cexCustomer
       = .error (.bookingError m)) ∧
    (∃ m, cancel_appointment 40 "" cexCompletedAppt = .error (.bookingError m)) ∧
    (∃ m, complete_appointment 40 cexCompletedAppt cexCustomer
       = .error (.bookingError m)) ∧
    (∃ m, mark_no_show 40 cexCompletedAppt = .error (.bookingError m)) :=
  (lifecycle_state_guards 40 none "" cexCompletedAppt cexCustomer).1 (by decide)


/-- C9: for an appointment with a positive (validated) duration,
`complete_appointment` raises a BookingError exactly when the status is not
CONFIRMED or `end_time = scheduled_at + duration_minutes` is strictly after
now; on success it sets status COMPLETED, `completed_at = now`, and the
`last_appointment_at` of the customer to that same instant. -/
theorem complete_spec (now : Int) (a : Appointment) (c : Customer)
    (hdur : 0 < a.duration_minutes) :
    ((∃ m, complete_appointment now a c = .error (.bookingError m)) ↔
      (a.status ≠ .CONFIRMED ∨ a.scheduled_at + a.duration_minutes > now)) ∧
    (∀ a2 c2, complete_appointment now a c = .ok (a2, c2) →
      a2.status = .COMPLETED ∧ a2.completed_at = some now ∧
      c2.last_appointment_at = some now ∧
      c2.last_appointment_at = a2.completed_at) := by
  have hend : end_time a = some (a.scheduled_at + a.duration_minutes) := by
    unfold end_time
    rw [if_pos (by omega)]
  by_cases hs : a.status = .CONFIRMED
  · by_cases hlt : a.scheduled_at + a.duration_minutes > now
    · have hcomp : complete_appointment now a c =
          .error (.bookingError "No se puede completar una cita que aún no ha terminado") := by
        simp only [complete_appointment]
        rw [if_neg (by simp [hs]), hend]
        simp only [if_pos hlt]
      rw [hcomp]
      refine ⟨⟨fun _ => Or.inr hlt, fun _ => ⟨_, rfl⟩⟩, ?_⟩
      intro a2 c2 h
      exact absurd h (by simp)
    · have hcomp : complete_appointment now a c =
          .ok ({ a with status := .COMPLETED, completed_at := some now },
               { c with last_appointment_at := some now }) := by
        simp only [complete_appointment]
        rw [if_neg (by simp [hs]), hend]
        simp only [if_neg hlt]
      rw [hcomp]
      constructor
      · constructor
        · intro hm
          obtain ⟨m, hm⟩ := hm
          exact absurd hm (by simp)
        · intro hor
          rcases hor with h | h
          · exact absurd hs h
          · exact absurd h hlt
      · intro a2 c2 h
        simp only [Except.ok.injEq, Prod.mk.injEq] at h
        obtain ⟨h1, h2⟩ := h
        rw [← h1, ← h2]
        exact ⟨rfl, rfl, rfl, rfl⟩
  · have hcomp : ∃ m, complete_appointment now a c = .error (.bookingError m) := by
      simp only [complete_appointment]
      rw [if_pos hs]
      exact ⟨_, rfl⟩
    constructor
    · exact ⟨fun _ => Or.inl hs, fun _ => hcomp⟩
    · intro a2 c2 h
      obtain ⟨m, hm⟩ := hcomp
      rw [hm] at h
      exact absurd h (by simp)

/-- Witness for `complete_spec`: a CONFIRMED appointment whose end (minute
30) has passed by minute 40 completes, stamping appointment and customer. -/
theorem complete_spec_witness :
    ((∃ m, complete_appointment 40 cexConfirmedAppt cexCustomer
        = .error (.bookingError m)) ↔
      (cexConfirmedAppt.status ≠ .CONFIRMED ∨
        cexConfirmedAppt.scheduled_at + cexConfirmedAppt.duration_minutes > 40)) ∧
    (∀ a2 c2, complete_appointment 40 cexConfirmedAppt cexCustomer = .ok (a2, c2) →
      a2.status = .COMPLETED ∧ a2.completed_at = some 40 ∧
      c2.last_appointment_at = some 40 ∧
      c2.last_appointment_at = a2.completed_at) :=
  complete_spec 40 cexConfirmedAppt cexCustomer (by decide)


/-- Inversion of a successful `create_appointment`: the slot check passed and
the new PENDING appointment (duration denormalized from the service) was
appended. -/
theorem create_shape {svc : Service} {now : Int} {cd : CustomerData} {t : Int}
    {notes : String} {s s' : BookingState}
    (h : create_appointment svc now cd t notes s = .ok s') :
    is_slot_available svc s.appointments t = true ∧
    s'.appointments = s.appointments ++
      [{ customer_phone := cd.phone, scheduled_at := t,
         duration_minutes := svc.duration_minutes, status := .PENDING,
         payment_status := .PENDING, total_amount := svc.price,
         currency := svc.currency, bancard_transaction_id := none,
         customer_notes := notes, internal_notes := "",
         confirmed_at := none, cancelled_at := none, completed_at := none }] := by
  simp only [create_appointment] at h
  split_ifs at h with h1 h2 h3 h4
  all_goals first
    | exact Except.noConfusion h
    | (refine ⟨by rwa [not_not] at h4, ?_⟩
       obtain rfl := Except.ok.inj h
       rfl)
    | (refine ⟨h4, ?_⟩
       obtain rfl := Except.ok.inj h
       rfl)

/-- If the conflict check accepts candidate `t`, every existing non-terminal
appointment is separated from `t` by at least duration + buffer. -/
theorem slot_ok_separates {svc : Service} {appts : List Appointment} {t : Int}
    (h : is_slot_available svc appts t = true) :
    ∀ a ∈ appts, NonTerminal a →
      a.scheduled_at + svc.duration_minutes + svc.buffer_time_minutes ≤ t ∨
      t + svc.duration_minutes + svc.buffer_time_minutes ≤ a.scheduled_at := by
  intro a ha hnt
  simp only [is_slot_available] at h
  split at h
  · exact absurd h (by simp)
  · next hov =>
    rw [Bool.not_eq_true, List.any_eq_false] at hov
    have := hov a ha
    simp only [decide_eq_true_eq, not_and, not_not] at this
    rcases hnt with hst | hst
    · have h2 := this (Or.inl hst)
      by_cases hlt : a.scheduled_at < t - svc.duration_minutes - svc.buffer_time_minutes
      · left; omega
      · right
        have := h2 (by omega)
        omega
    · have h2 := this (Or.inr hst)
      by_cases hlt : a.scheduled_at < t - svc.duration_minutes - svc.buffer_time_minutes
      · left; omega
      · right
        have := h2 (by omega)
        omega

/-- Inversion of `confirm_appointment`: times are untouched, PENDING becomes
CONFIRMED. -/
theorem confirm_shape {now : Int} {ptid : Option String} {a a2 : Appointment}
    {c c2 : Customer} (h : confirm_appointment now ptid a c = .ok (a2, c2)) :
    a2.scheduled_at = a.scheduled_at ∧ a2.duration_minutes = a.duration_minutes ∧
    a2.status = .CONFIRMED ∧ a.status = .PENDING := by
  simp only [confirm_appointment] at h
  split_ifs at h with h1
  all_goals first
    | exact Except.noConfusion h
    | (simp only [Except.ok.injEq, Prod.mk.injEq] at h
       rw [← h.1]
       exact ⟨rfl, rfl, rfl, h1⟩)
    | (rw [not_not] at h1
       simp only [Except.ok.injEq, Prod.mk.injEq] at h
       rw [← h.1]
       exact ⟨rfl, rfl, rfl, h1⟩)

/-- Inversion of `cancel_appointment`: times untouched, result CANCELLED. -/
theorem cancel_shape {now : Int} {reason : String} {a a2 : Appointment}
    (h : cancel_appointment now reason a = .ok a2) :
    a2.scheduled_at = a.scheduled_at ∧ a2.duration_minutes = a.duration_minutes ∧
    a2.status = .CANCELLED := by
  simp only [cancel_appointment] at h
  split_ifs at h with h1
  all_goals first
    | exact Except.noConfusion h
    | (rw [← Except.ok.inj h]
       exact ⟨rfl, rfl, rfl⟩)

/-- Inversion of `complete_appointment`: times untouched, result COMPLETED. -/
theorem complete_shape {now : Int} {a a2 : Appointment} {c c2 : Customer}
    (h : complete_appointment now a c = .ok (a2, c2)) :
    a2.scheduled_at = a.scheduled_at ∧ a2.duration_minutes = a.duration_minutes ∧
    a2.status = .COMPLETED := by
  simp only [complete_appointment] at h
  split_ifs at h with h1
  all_goals try exact Except.noConfusion h
  all_goals split at h
  all_goals try exact Except.noConfusion h
  all_goals split_ifs at h with h2
  all_goals first
    | exact Except.noConfusion h
    | (simp only [Except.ok.injEq, Prod.mk.injEq] at h
       rw [← h.1]
       exact ⟨rfl, rfl, rfl⟩)

/-- Inversion of `mark_no_show`: times untouched, result NO_SHOW. -/
theorem no_show_shape {now : Int} {a a2 : Appointment}
    (h : mark_no_show now a = .ok a2) :
    a2.scheduled_at = a.scheduled_at ∧ a2.duration_minutes = a.duration_minutes ∧
    a2.status = .NO_SHOW := by
  simp only [mark_no_show] at h
  split_ifs at h with h1 h2
  all_goals first
    | exact Except.noConfusion h
    | (rw [← Except.ok.inj h]
       exact ⟨rfl, rfl, rfl⟩)


theorem confirm_at_ok {now : Int} {ptid : Option String} {i : Nat}
    {s s' : BookingState} (h : confirm_at now ptid i s = .ok s') :
    StatusUpdateOK s s' := by
  simp only [confirm_at] at h
  split at h
  · exact Except.noConfusion h
  · next a ha =>
    split at h
    · exact Except.noConfusion h
    · next c hc =>
      split at h
      · exact Except.noConfusion h
      · next a2 c2 heq =>
        obtain ⟨h1, h2, h3, h4⟩ := confirm_shape heq
        refine ⟨i, a, a2, ha, ?_, h1, h2, fun _ => Or.inl h4⟩
        rw [← Except.ok.inj h]

theorem cancel_at_ok {now : Int} {reason : String} {i : Nat}
    {s s' : BookingState} (h : cancel_at now reason i s = .ok s') :
    StatusUpdateOK s s' := by
  simp only [cancel_at] at h
  split at h
  · exact Except.noConfusion h
  · next a ha =>
    split at h
    · exact Except.noConfusion h
    · next a2 heq =>
      obtain ⟨h1, h2, h3⟩ := cancel_shape heq
      refine ⟨i, a, a2, ha, ?_, h1, h2, fun hnt => ?_⟩
      · rw [← Except.ok.inj h]
      · rcases hnt with hc | hc <;> rw [h3] at hc <;> exact absurd hc (by simp)

theorem complete_at_ok {now : Int} {i : Nat} {s s' : BookingState}
    (h : complete_at now i s = .ok s') : StatusUpdateOK s s' := by
  simp only [complete_at] at h
  split at h
  · exact Except.noConfusion h
  · next a ha =>
    split at h
    · exact Except.noConfusion h
    · next c hc =>
      split at h
      · exact Except.noConfusion h
      · next a2 c2 heq =>
        obtain ⟨h1, h2, h3⟩ := complete_shape heq
        refine ⟨i, a, a2, ha, ?_, h1, h2, fun hnt => ?_⟩
        · rw [← Except.ok.inj h]
        · rcases hnt with hc2 | hc2 <;> rw [h3] at hc2 <;> exact absurd hc2 (by simp)

theorem no_show_at_ok {now : Int} {i : Nat} {s s' : BookingState}
    (h : no_show_at now i s = .ok s') : StatusUpdateOK s s' := by
  simp only [no_show_at] at h
  split at h
  · exact Except.noConfusion h
  · next a ha =>
    split at h
    · exact Except.noConfusion h
    · next a2 heq =>
      obtain ⟨h1, h2, h3⟩ := no_show_shape heq
      refine ⟨i, a, a2, ha, ?_, h1, h2, fun hnt => ?_⟩
      · rw [← Except.ok.inj h]
      · rcases hnt with hc | hc <;> rw [h3] at hc <;> exact absurd hc (by simp)


theorem sepOK_concat {svc : Service} {l : List Appointment} {x : Appointment}
    (hsep : SepOK svc l)
    (hx : ∀ a ∈ l, NonTerminal a → Separated svc a x) : SepOK svc (l ++ [x]) := by
  intro i j hi hj hne hni hnj
  have hlen : (l ++ [x]).length = l.length + 1 := by simp
  rw [hlen] at hi hj
  by_cases hib : i < l.length <;> by_cases hjb : j < l.length
  · have ei : (l ++ [x]).get ⟨i, by simp; omega⟩ = l.get ⟨i, hib⟩ :=
      List.getElem_append_left hib
    have ej : (l ++ [x]).get ⟨j, by simp; omega⟩ = l.get ⟨j, hjb⟩ :=
      List.getElem_append_left hjb
    rw [ei] at hni ⊢
    rw [ej] at hnj ⊢
    exact hsep i j hib hjb hne hni hnj
  · have hj' : j = l.length := by omega
    have ei : (l ++ [x]).get ⟨i, by simp; omega⟩ = l.get ⟨i, hib⟩ :=
      List.getElem_append_left hib
    have ej : (l ++ [x]).get ⟨j, by simp; omega⟩ = x :=
      List.getElem_concat_length _ _ _ hj' _
    rw [ei] at hni ⊢
    rw [ej] at hnj ⊢
    exact hx _ (List.get_mem _ _ _) hni
  · have hi' : i = l.length := by omega
    have ei : (l ++ [x]).get ⟨i, by simp; omega⟩ = x :=
      List.getElem_concat_length _ _ _ hi' _
    have ej : (l ++ [x]).get ⟨j, by simp; omega⟩ = l.get ⟨j, hjb⟩ :=
      List.getElem_append_left hjb
    rw [ei] at hni ⊢
    rw [ej] at hnj ⊢
    exact Or.symm (hx _ (List.get_mem _ _ _) hnj)
  · exact absurd (by omega : i = j) hne

theorem sepOK_set {svc : Service} {l : List Appointment} {k : Nat}
    {a0 a2 : Appointment} (hsep : SepOK svc l) (hk : k < l.length)
    (ha0 : l.get ⟨k, hk⟩ = a0) (hsched : a2.scheduled_at = a0.scheduled_at)
    (hnt : NonTerminal a2 → NonTerminal a0) : SepOK svc (l.set k a2) := by
  intro i j hi hj hne hni hnj
  have hi' : i < l.length := by simpa using hi
  have hj' : j < l.length := by simpa using hj
  have ei : (l.set k a2).get ⟨i, hi⟩ = if k = i then a2 else l.get ⟨i, hi'⟩ :=
    List.getElem_set _
  have ej : (l.set k a2).get ⟨j, hj⟩ = if k = j then a2 else l.get ⟨j, hj'⟩ :=
    List.getElem_set _
  rw [ei] at hni ⊢
  rw [ej] at hnj ⊢
  by_cases hki : k = i <;> by_cases hkj : k = j
  · exact absurd (hki ▸ hkj) hne
  · rw [if_pos hki] at hni ⊢
    rw [if_neg hkj] at hnj ⊢
    subst hki
    have hsep0 := hsep k j hk hj' hkj (by rw [ha0]; exact hnt hni) hnj
    rw [ha0] at hsep0
    unfold Separated at hsep0 ⊢
    rw [hsched]
    exact hsep0
  · rw [if_neg hki] at hni ⊢
    rw [if_pos hkj] at hnj ⊢
    subst hkj
    have hsep0 := hsep i k hi' hk (fun hik => hki hik.symm) hni
      (by rw [ha0]; exact hnt hnj)
    rw [ha0] at hsep0
    unfold Separated at hsep0 ⊢
    rw [hsched]
    exact hsep0
  · rw [if_neg hki] at hni ⊢
    rw [if_neg hkj] at hnj ⊢
    exact hsep i j hi' hj' hne hni hnj

/-- C7 (amended): in every state reachable through `create_appointment` and
the lifecycle operations, appointments carry the duration of the service, and any
two distinct non-terminal appointments start at least `duration + buffer`
apart — i.e. their `[start, end + buffer)` windows (buffer applied once) are
disjoint.  The symmetric `[start - buffer, end + buffer)` disjointness
does NOT hold, because the conflict check buffers only the candidate window;
see the counterexample. -/
theorem no_double_booking_single_buffer (svc : Service) (s : BookingState)
    (hr : BReachable svc bkgd0 s) :
    DurOK svc s.appointments ∧ SepOK svc s.appointments := by
  induction hr with
  | refl =>
    constructor
    · intro a ha
      simp [bkgd0] at ha
    · intro i j hi hj
      simp [bkgd0] at hi
  | tail hbc hstep ih =>
    cases hstep with
    | create now cd t notes b c hok =>
      obtain ⟨hslot, happ⟩ := create_shape hok
      have hsepnew := slot_ok_separates hslot
      constructor
      · intro a ha
        rw [happ] at ha
        rcases List.mem_append.1 ha with h | h
        · exact ih.1 a h
        · rw [List.mem_singleton.1 h]
      · rw [happ]
        exact sepOK_concat ih.2 (fun a ha hna => hsepnew a ha hna)
    | confirm now ptid i0 b c hok =>
      obtain ⟨k, a0, a2, ha0, happ, hsched, hdur, hnt⟩ := confirm_at_ok hok
      obtain ⟨hk, ha0eq⟩ := List.getElem?_eq_some.1 ha0
      constructor
      · intro a ha
        rw [happ] at ha
        rcases List.mem_or_eq_of_mem_set ha with h | h
        · exact ih.1 a h
        · rw [h, hdur, ← ha0eq]
          exact ih.1 _ (List.get_mem _ _ _)
      · rw [happ]
        exact sepOK_set ih.2 hk ha0eq hsched hnt
    | cancel now reason i0 b c hok =>
      obtain ⟨k, a0, a2, ha0, happ, hsched, hdur, hnt⟩ := cancel_at_ok hok
      obtain ⟨hk, ha0eq⟩ := List.getElem?_eq_some.1 ha0
      constructor
      · intro a ha
        rw [happ] at ha
        rcases List.mem_or_eq_of_mem_set ha with h | h
        · exact ih.1 a h
        · rw [h, hdur, ← ha0eq]
          exact ih.1 _ (List.get_mem _ _ _)
      · rw [happ]
        exact sepOK_set ih.2 hk ha0eq hsched hnt
    | complete now i0 b c hok =>
      obtain ⟨k, a0, a2, ha0, happ, hsched, hdur, hnt⟩ := complete_at_ok hok
      obtain ⟨hk, ha0eq⟩ := List.getElem?_eq_some.1 ha0
      constructor
      · intro a ha
        rw [happ] at ha
        rcases List.mem_or_eq_of_mem_set ha with h | h
        · exact ih.1 a h
        · rw [h, hdur, ← ha0eq]
          exact ih.1 _ (List.get_mem _ _ _)
      · rw [happ]
        exact sepOK_set ih.2 hk ha0eq hsched hnt
    | noShow now i0 b c hok =>
      obtain ⟨k, a0, a2, ha0, happ, hsched, hdur, hnt⟩ := no_show_at_ok hok
      obtain ⟨hk, ha0eq⟩ := List.getElem?_eq_some.1 ha0
      constructor
      · intro a ha
        rw [happ] at ha
        rcases List.mem_or_eq_of_mem_set ha with h | h
        · exact ih.1 a h
        · rw [h, hdur, ← ha0eq]
          exact ih.1 _ (List.get_mem _ _ _)
      · rw [happ]
        exact sepOK_set ih.2 hk ha0eq hsched hnt


/-- C7 counterexample: with duration 30 and buffer 10, creating appointments
at minutes 10 and 51 (both accepted by `is_slot_available`, both PENDING) is
a reachable history, yet their symmetric buffer-expanded windows
`[0, 50)` and `[41, 91)` overlap — the conflict check applies the buffer only
to the candidate window, so only one-buffer separation is enforced. -/
theorem buffered_windows_overlap :
    BReachable cexSvc bkgd0 bkgd2 ∧
    ∃ x ∈ bkgd2.appointments, ∃ y ∈ bkgd2.appointments, x ≠ y ∧
      NonTerminal x ∧ NonTerminal y ∧
      x.scheduled_at - cexSvc.buffer_time_minutes <
        y.scheduled_at + y.duration_minutes + cexSvc.buffer_time_minutes ∧
      y.scheduled_at - cexSvc.buffer_time_minutes <
        x.scheduled_at + x.duration_minutes + cexSvc.buffer_time_minutes := by
  constructor
  · exact Relation.ReflTransGen.tail
      (Relation.ReflTransGen.tail Relation.ReflTransGen.refl
        (BStep.create 0 cexCD 10 "" bkgd0 bkgd1 (by decide)))
      (BStep.create 0 cexCD2 51 "" bkgd1 bkgd2 (by decide))
  · decide

/-- Witness for `no_double_booking_single_buffer` on the one-appointment
state reached by a single create. -/
theorem no_double_booking_single_buffer_witness :
    DurOK cexSvc bkgd1.appointments ∧ SepOK cexSvc bkgd1.appointments :=
  no_double_booking_single_buffer cexSvc bkgd1
    (Relation.ReflTransGen.tail Relation.ReflTransGen.refl
      (BStep.create 0 cexCD 10 "" bkgd0 bkgd1 (by decide)))

end BookingCore
